import Mathlib

/-!
Verification development for the video labeling repository (Cyclone-Robosub/Labeler).

The definitions below are a shallow embedding of the annotation core:
the data model of src/src/mvvm/models.py (AnnotationSession, Point, Mask,
ObjectDefinition), the orchestration layer of src/src/mvvm/viewmodel.py
(point entry, undo, navigation, lazy propagation, object management), and
the export engine of src/src/mvvm/services.py together with
src/src/labeler/dataset.py (COCODataset).

Python dictionaries are embedded as insertion-ordered association lists with
unique keys; the operations lookupA / setValA / delA mirror dict lookup,
item assignment (overwrite in place, append new keys at the end) and `del`.
The external SAM2 predictor is abstracted as a structure of functions
(Predictor); a ghost counter `predictor_calls` in the state records how many
times the predictor was invoked, so that "issues no predictor call" is
expressible. Machine floats (mask confidence, fps) are never consulted by
any claim and are omitted.
-/

/-- Python dict lookup on an insertion-ordered association list. -/
def lookupA {κ α : Type} [DecidableEq κ] (k : κ) : List (κ × α) → Option α
  | [] => none
  | (k', v) :: rest => if k' = k then some v else lookupA k rest

/-- Python dict item assignment: overwrite in place if the key is present,
append at the end otherwise. -/
def setValA {κ α : Type} [DecidableEq κ] (k : κ) (v : α) : List (κ × α) → List (κ × α)
  | [] => [(k, v)]
  | (k', v') :: rest => if k' = k then (k, v) :: rest else (k', v') :: setValA k v rest

/-- Python `del d[k]`: remove the entry with the given key. -/
def delA {κ α : Type} [DecidableEq κ] (k : κ) : List (κ × α) → List (κ × α)
  | [] => []
  | (k', v') :: rest => if k' = k then rest else (k', v') :: delA k rest

/-- Characters stripped by Python str.strip with no argument. -/
def isPySpace (c : Char) : Bool :=
  c == ' ' || c == '\t' || c == '\n' || c == '\x0d' || c == '\x0b' || c == '\x0c'

/-- Python str.strip(): drop leading and trailing whitespace. -/
def pyStrip (s : String) : String :=
  String.mk (((s.data.dropWhile isPySpace).reverse.dropWhile isPySpace).reverse)

/-- Python str.lower() (ASCII case mapping, which is all the repository uses). -/
def pyLower (s : String) : String :=
  String.mk (s.data.map Char.toLower)

/-- os.path.basename: the part of the path after the last slash. -/
def pyBasename (p : String) : String :=
  String.mk ((p.data.reverse.takeWhile (fun c => !(c == '/'))).reverse)

/-- Zero-padded five-digit frame filenames produced by
VideoService.extract_frames_to_directory (f"{frame_counter:05d}.jpg"). -/
def zeroPad5 (n : Nat) : String :=
  let s := toString n
  String.mk (List.replicate (5 - s.length) '0') ++ s

/-- models.py ObjectDefinition (id, name, BGR color). -/
structure ObjectDefinition where
  id : Int
  name : String
  color : Nat × Nat × Nat
deriving DecidableEq

/-- models.py Point (x, y, label, frame_index, object_id). -/
structure Point where
  x : Int
  y : Int
  label : Int
  frame_index : Int
  object_id : Int
deriving DecidableEq

/-- Mask pixel data: a 2D grid of integers, nonzero meaning set
(np.ndarray of the source, restricted to what the claims consult). -/
abbrev MaskData := List (List Nat)

/-- models.py Mask (mask_data, object_id, frame_index); the float
`confidence` field is never read anywhere and is omitted. -/
structure Mask where
  mask_data : MaskData
  object_id : Int
  frame_index : Int
deriving DecidableEq

/-- AnnotationSession.masks: frame_index -> (object_id -> Mask), a Python
dict of dicts embedded as nested insertion-ordered association lists. -/
abbrev MaskMap := List (Int × List (Int × Mask))

/-- The session state driven by VideoLabelerViewModel: AnnotationSession
fields of models.py plus the view-model's current_frame_index, and a ghost
counter of predictor invocations. -/
structure SessionState where
  total_frames : Int
  current_frame_index : Int
  start_frame : Int
  points : List Point
  masks : MaskMap
  frame_paths : List String
  is_initialized : Bool
  needs_propagation : Bool
  objects : List (Int × ObjectDefinition)
  current_object_id : Option Int
  next_object_id : Int
  predictor_calls : Nat
deriving DecidableEq

/-- The abstract SAM2 predictor (AnnotationService): add_point_annotation
returns mask pixels for the full point set of one object on one frame;
propagate_annotations returns relative-frame-indexed masks and may depend
on everything that happened so far. -/
structure Predictor where
  addPoints : List Point → MaskData
  propagate : SessionState → List (Int × List (Int × MaskData))

/-- Operator commands wired in VideoLabelerViewModel.__init__. -/
inductive Op where
  | addPoint (x y label : Int)
  | undoPoint
  | nextFrame
  | prevFrame
  | jumpToFrame (target : Int)
  | propagate
  | addObject (name : String)
  | selectObject (oid : Int)
deriving DecidableEq

/-- AnnotationSession.get_all_points_for_current_object_on_frame /
get_points_for_object_on_frame: filter by frame then object. -/
def pointsOnFrameForObj (pts : List Point) (frame oid : Int) : List Point :=
  pts.filter (fun p => p.frame_index == frame && p.object_id == oid)

/-- AnnotationSession.add_mask: create the inner dict for the frame if
missing, then assign at the mask's object id. -/
def addMask (masks : MaskMap) (m : Mask) : MaskMap :=
  setValA m.frame_index (setValA m.object_id m ((lookupA m.frame_index masks).getD [])) masks

/-- The mask deletion performed by _undo_last_point when no points remain:
`if current_object_id in get_masks_for_frame(f): del masks[f][oid]`. -/
def undoDeleteMask (masks : MaskMap) (f oid : Int) : MaskMap :=
  match lookupA f masks with
  | none => masks
  | some inner => if (lookupA oid inner).isSome then setValA f (delA oid inner) masks else masks

/-- VideoService.extract_frames_to_directory: one numbered jpg per frame
from start_frame to the end of the video. -/
def extractedFramePaths (start total : Int) : List String :=
  (List.range (total - start).toNat).map (fun i => zeroPad5 i ++ ".jpg")

/-- The clamp in _jump_to_frame: max(0, min(target, total_frames - 1)). -/
def clampFrame (total target : Int) : Int :=
  max 0 (min target (total - 1))

/-- The color palette in AnnotationSession.add_object. -/
def objectColors : List (Nat × Nat × Nat) :=
  [(255, 0, 0), (0, 255, 0), (0, 0, 255), (255, 255, 0),
   (255, 0, 255), (0, 255, 255), (128, 0, 128), (255, 165, 0)]

/-- _add_point: no-op without a selected object; first point initializes the
session (extract frames, predictor init, start_frame := current frame);
append the point, recompute the current object's mask on this frame from the
full accumulated point set translated to relative indices, store it at the
absolute key, and flag propagation. -/
def addPointStep (pred : Predictor) (x y label : Int) (s : SessionState) : SessionState :=
  match s.current_object_id with
  | none => s
  | some oid =>
    let s1 := if s.is_initialized then s
      else { s with
        start_frame := s.current_frame_index,
        frame_paths := extractedFramePaths s.current_frame_index s.total_frames,
        is_initialized := true,
        predictor_calls := s.predictor_calls + 1 }
    let p : Point := ⟨x, y, label, s1.current_frame_index, oid⟩
    let points' := s1.points ++ [p]
    let allPts := pointsOnFrameForObj points' s1.current_frame_index oid
    let relPts := allPts.map (fun q => { q with frame_index := q.frame_index - s1.start_frame })
    let md := pred.addPoints relPts
    { s1 with
      points := points',
      masks := addMask s1.masks ⟨md, oid, s1.current_frame_index⟩,
      needs_propagation := true,
      predictor_calls := s1.predictor_calls + 1 }

/-- _undo_last_point: pop the last point; if points remain for the current
object on this frame, recompute and overwrite its mask from the reduced set;
otherwise delete the mask entry for that key; flag propagation. No-op when
the point list is empty. -/
def undoPointStep (pred : Predictor) (s : SessionState) : SessionState :=
  match s.points.getLast? with
  | none => s
  | some _ =>
    let points' := s.points.dropLast
    match s.current_object_id with
    | none => { s with points := points', needs_propagation := true }
    | some oid =>
      let remaining := pointsOnFrameForObj points' s.current_frame_index oid
      if remaining.isEmpty then
        { s with
          points := points',
          masks := undoDeleteMask s.masks s.current_frame_index oid,
          needs_propagation := true }
      else
        let relPts := remaining.map (fun q => { q with frame_index := q.frame_index - s.start_frame })
        let md := pred.addPoints relPts
        { s with
          points := points',
          masks := addMask s.masks ⟨md, oid, s.current_frame_index⟩,
          needs_propagation := true,
          predictor_calls := s.predictor_calls + 1 }

/-- The session update in _propagate_if_needed: every returned
(relativeFrame, objectId, mask) is stored at the absolute key
start_frame + relativeFrame. -/
def applyPropagationResult (start : Int) (res : List (Int × List (Int × MaskData)))
    (masks : MaskMap) : MaskMap :=
  res.foldl (fun acc fm =>
    fm.2.foldl (fun acc2 om => addMask acc2 ⟨om.2, om.1, start + fm.1⟩) acc) masks

/-- _propagate_if_needed: run the predictor's whole-video propagation and
clear the flag, only when the flag is set. -/
def propagateIfNeeded (pred : Predictor) (s : SessionState) : SessionState :=
  if s.needs_propagation then
    { s with
      masks := applyPropagationResult s.start_frame (pred.propagate s) s.masks,
      needs_propagation := false,
      predictor_calls := s.predictor_calls + 1 }
  else s

/-- _next_frame: below the last frame, propagate if needed then advance. -/
def nextFrameStep (pred : Predictor) (s : SessionState) : SessionState :=
  if s.current_frame_index < s.total_frames - 1 then
    let s1 := propagateIfNeeded pred s
    { s1 with current_frame_index := s1.current_frame_index + 1 }
  else s

/-- _previous_frame: above frame 0, propagate if needed then step back. -/
def prevFrameStep (pred : Predictor) (s : SessionState) : SessionState :=
  if s.current_frame_index > 0 then
    let s1 := propagateIfNeeded pred s
    { s1 with current_frame_index := s1.current_frame_index - 1 }
  else s

/-- _jump_to_frame: clamp the target; only when it differs from the current
frame, propagate if needed and move. -/
def jumpToFrameStep (pred : Predictor) (target : Int) (s : SessionState) : SessionState :=
  let t := clampFrame s.total_frames target
  if t ≠ s.current_frame_index then
    let s1 := propagateIfNeeded pred s
    { s1 with current_frame_index := t }
  else s

/-- _propagate_annotations behind its command gate _can_propagate
(is_initialized): force the flag then run _propagate_if_needed. -/
def propagateStep (pred : Predictor) (s : SessionState) : SessionState :=
  if s.is_initialized then propagateIfNeeded pred { s with needs_propagation := true } else s

/-- _add_object: reject empty/whitespace names and names whose lowercase
form equals a stored name's lowercase form (stored names are stripped);
otherwise AnnotationSession.add_object appends the object under
next_object_id, selects it if none was selected, and bumps the counter. -/
def addObjectStep (name : String) (s : SessionState) : SessionState :=
  if pyStrip name = "" then s
  else if s.objects.any (fun kv => pyLower kv.2.name == pyStrip (pyLower name)) then s
  else
    let oid := s.next_object_id
    let color := objectColors.getD (oid % 8).toNat (255, 0, 0)
    let obj : ObjectDefinition := ⟨oid, pyStrip name, color⟩
    { s with
      objects := setValA oid obj s.objects,
      current_object_id := if s.current_object_id = none then some oid else s.current_object_id,
      next_object_id := oid + 1 }

/-- _select_object behind its command gate _has_objects: select an existing
object id, ignore unknown ids. -/
def selectObjectStep (oid : Int) (s : SessionState) : SessionState :=
  if s.objects.isEmpty then s
  else if (lookupA oid s.objects).isSome then { s with current_object_id := some oid } else s

/-- One operator command dispatched through the view-model. -/
def step (pred : Predictor) (op : Op) (s : SessionState) : SessionState :=
  match op with
  | .addPoint x y l => addPointStep pred x y l s
  | .undoPoint => undoPointStep pred s
  | .nextFrame => nextFrameStep pred s
  | .prevFrame => prevFrameStep pred s
  | .jumpToFrame t => jumpToFrameStep pred t s
  | .propagate => propagateStep pred s
  | .addObject n => addObjectStep n s
  | .selectObject i => selectObjectStep i s

/-- A sequence of operator commands. -/
def runOps (pred : Predictor) (ops : List Op) (s : SessionState) : SessionState :=
  ops.foldl (fun st op => step pred op st) s

/-- An image record of dataset.py COCODataset. -/
structure CocoImage where
  id : Nat
  file_name : String
  width : Nat
  height : Nat
deriving DecidableEq

/-- A detection record of dataset.py COCODataset (segmentation is always
null in the source and is omitted). -/
structure CocoAnn where
  id : Nat
  image_id : Nat
  category_id : Nat
  area : Nat
  bbox : List Nat
  iscrowd : Nat
deriving DecidableEq

/-- A category record of dataset.py COCODataset. -/
structure CocoCategory where
  id : Nat
  name : String
  supercategory : String
deriving DecidableEq

/-- dataset.py COCODataset: the record lists plus the name-keyed category
id map and its auto-incrementing counter. -/
structure COCODataset where
  images : List CocoImage
  annotations : List CocoAnn
  categories : List CocoCategory
  category_id_map : List (String × Nat)
  next_category_id : Nat
deriving DecidableEq

/-- COCODataset.__init__. -/
def emptyCoco : COCODataset :=
  ⟨[], [], [], [], 1⟩

/-- COCODataset.add_category: reuse the id mapped to the name, otherwise
append a fresh category under the next sequential id. -/
def COCODataset.add_category (d : COCODataset) (object_name : String) : COCODataset × Nat :=
  match lookupA object_name d.category_id_map with
  | some cid => (d, cid)
  | none =>
    let cid := d.next_category_id
    ({ d with
        next_category_id := cid + 1,
        categories := d.categories ++ [⟨cid, object_name, "object"⟩],
        category_id_map := d.category_id_map ++ [(object_name, cid)] }, cid)

/-- The nonzero pixel coordinates (row, col) of a mask: np.where(mask > 0). -/
def maskNonzeroCoords (mask : MaskData) : List (Nat × Nat) :=
  (mask.enum.map (fun ri =>
    ri.2.enum.filterMap (fun cj => if cj.2 > 0 then some (ri.1, cj.1) else none))).flatten

/-- COCODataset.mask_to_bbox: [x_min, y_min, width, height] of the nonzero
pixels, [0,0,0,0] for an empty mask. -/
def mask_to_bbox (mask : MaskData) : List Nat :=
  let coords := maskNonzeroCoords mask
  if coords.isEmpty then [0, 0, 0, 0]
  else
    let xs := coords.map (fun rc => rc.2)
    let ys := coords.map (fun rc => rc.1)
    let xmin := xs.foldl Nat.min (xs.headD 0)
    let xmax := xs.foldl Nat.max 0
    let ymin := ys.foldl Nat.min (ys.headD 0)
    let ymax := ys.foldl Nat.max 0
    [xmin, ymin, xmax - xmin + 1, ymax - ymin + 1]

/-- COCODataset.convert_mask_to_annotation: bbox-derived record with
area = w * h and a sequential id; image_id (None in the source) is filled
in by add_image and is 0 until then. -/
def COCODataset.convert_mask_to_ann (d : COCODataset) (mask : MaskData) (cid : Nat) : CocoAnn :=
  let bb := mask_to_bbox mask
  ⟨d.annotations.length + 1, 0, cid, bb.getD 2 0 * bb.getD 3 0, bb, 0⟩

/-- COCODataset.add_image: unconditionally append an image record under the
next sequential id; when a detection record is supplied, point it at that
image and append it. -/
def COCODataset.add_image (d : COCODataset) (image_path : String) (width height : Nat)
    (ann : Option CocoAnn) : COCODataset :=
  let image_id := d.images.length + 1
  let d1 := { d with images := d.images ++ [⟨image_id, pyBasename image_path, width, height⟩] }
  match ann with
  | none => d1
  | some a => { d1 with annotations := d1.annotations ++ [{ a with image_id := image_id }] }

/-- mask.shape[0] of a 2D grid. -/
def maskHeight (mask : MaskData) : Nat := mask.length

/-- mask.shape[1] of a 2D grid. -/
def maskWidth (mask : MaskData) : Nat := (mask.headD []).length

/-- COCODataset.add_sam_mask: resolve the category by name, build the
detection record, then add_image (np.squeeze is the identity on the 2D
grids stored here). -/
def COCODataset.add_sam_mask (d : COCODataset) (mask : MaskData) (image_path : String)
    (object_name : String) : COCODataset :=
  let dc := d.add_category object_name
  let ann := dc.1.convert_mask_to_ann mask dc.2
  dc.1.add_image image_path (maskWidth mask) (maskHeight mask) (some ann)

/-- The bounds test of ExportService.export_to_coco:
0 <= absolute - start_frame < len(frame_paths). -/
def inExportRange (s : SessionState) (frame : Int) : Bool :=
  decide (0 ≤ frame - s.start_frame ∧ frame - s.start_frame < (s.frame_paths.length : Int))

/-- The object-name resolution of ExportService.export_to_coco:
"unknown" when the object id is not in session.objects. -/
def objectNameFor (s : SessionState) (oid : Int) : String :=
  match lookupA oid s.objects with
  | some o => o.name
  | none => "unknown"

/-- The body of the export loop for one masks entry of one frame: every
mask whose relative index is inside frame_paths is added, the rest are
passed over. -/
def exportMaskEntry (s : SessionState) (d : COCODataset)
    (fm : Int × List (Int × Mask)) : COCODataset :=
  fm.2.foldl (fun d2 om =>
    if inExportRange s fm.1 then
      d2.add_sam_mask om.2.mask_data
        (s.frame_paths.getD (fm.1 - s.start_frame).toNat "") (objectNameFor s om.1)
    else d2) d

/-- ExportService.export_to_coco: fold the session's masks, in dict
insertion order, into a fresh COCODataset. -/
def export_to_coco (s : SessionState) : COCODataset :=
  s.masks.foldl (exportMaskEntry s) emptyCoco

/-- The number of session masks the export bounds test lets through. -/
def exportedMaskCount (s : SessionState) : Nat :=
  (s.masks.map (fun fm => if inExportRange s fm.1 then fm.2.length else 0)).sum

/-- The methods the class ExportService in services.py defines. -/
def exportServiceMethods : List String :=
  ["__init__", "export_to_coco"]

/-- A Python runtime fault as surfaced by the view-model's except blocks. -/
inductive PyFault where
  | attributeFault (msg : String)
deriving DecidableEq

/-- _export_coco_partial of viewmodel.py: it resolves the attribute
export_to_coco_partial on the ExportService instance before calling it;
ExportService defines no such method, so the resolution itself determines
the outcome. -/
def exportCocoPartialCmd (s : SessionState) : Except PyFault COCODataset :=
  if "export_to_coco_partial" ∈ exportServiceMethods then
    Except.ok (export_to_coco s)
  else
    Except.error (.attributeFault "ExportService object has no attribute export_to_coco_partial")

/-- The inline relative-index computation used at the predictor boundary
(_add_point, _propagate_if_needed, export_to_coco):
relative = absolute - start_frame, with no check of any kind. -/
def toRelative (absoluteFrame startFrame : Int) : Int :=
  absoluteFrame - startFrame

/-- The inline absolute-index computation of _propagate_if_needed and
_export_coco_partial: absolute = start_frame + relative. -/
def toAbsolute (relativeFrame startFrame : Int) : Int :=
  relativeFrame + startFrame

/-- Modelled from the spec: section 4.1's toRelative, which the spec says
"Fails (returns an error) ... if the result is negative"; no such checked
conversion exists anywhere in the source, which only ever subtracts. -/
def toRelativeChecked (absoluteFrame startFrame : Int) : Option Int :=
  if absoluteFrame - startFrame < 0 then none else some (absoluteFrame - startFrame)

/-- Python dict equality for an inner object_id -> Mask dict: same key set,
equal values, insertion order ignored. -/
def innerDictEq (a b : List (Int × Mask)) : Bool :=
  a.all (fun kv => match lookupA kv.1 b with
    | some v => decide (v = kv.2)
    | none => false)
  && b.all (fun kv => (lookupA kv.1 a).isSome)

/-- Python dict equality for the nested masks map: same frame key set and
equal inner dicts. -/
def maskMapEq (a b : MaskMap) : Bool :=
  a.all (fun kv => match lookupA kv.1 b with
    | some inner => innerDictEq kv.2 inner
    | none => false)
  && b.all (fun kv => (lookupA kv.1 a).isSome)

/-- A fixed deterministic predictor instance used for concrete runs. -/
def predFix : Predictor :=
  { addPoints := fun _ => [[1]], propagate := fun _ => [] }

/-- A concrete mid-session state: frame 2 of 5, initialized at frame 2,
object 1 "block" selected, propagation pending. -/
def sBase : SessionState :=
  { total_frames := 5, current_frame_index := 2, start_frame := 2,
    points := [⟨10, 10, 1, 2, 1⟩],
    masks := [(2, [(1, ⟨[[1]], 1, 2⟩)])],
    frame_paths := ["00000.jpg", "00001.jpg", "00002.jpg"],
    is_initialized := true, needs_propagation := true,
    objects := [(1, ⟨1, "block", (0, 255, 0)⟩)], current_object_id := some 1,
    next_object_id := 2, predictor_calls := 1 }

/-- A concrete state before any point was added (not yet initialized). -/
def sFresh : SessionState :=
  { sBase with points := [], masks := [], frame_paths := [],
               is_initialized := false, needs_propagation := false,
               start_frame := 0, predictor_calls := 0 }

/-- A concrete initialized state with no points, no masks and no pending
propagation. -/
def sNoNeed : SessionState :=
  { sBase with points := [], masks := [], needs_propagation := false }

/-- sNoNeed after its masks map acquired an entry for the current frame. -/
def sC2w : SessionState :=
  { sNoNeed with masks := [(2, [])] }

/-- A concrete state sitting on the last frame with propagation pending. -/
def sLast : SessionState :=
  { sBase with current_frame_index := 4 }

/-- A concrete state sitting on frame 0 with propagation pending. -/
def sFirst : SessionState :=
  { sBase with current_frame_index := 0 }

/-- A small mask with one nonzero pixel. -/
def mA : MaskData := [[1, 0], [0, 0]]

/-- A small mask with two nonzero pixels. -/
def mB : MaskData := [[0, 1], [0, 1]]

/-- A concrete session whose single extracted frame carries masks for two
different objects. -/
def sC4 : SessionState :=
  { total_frames := 1, current_frame_index := 0, start_frame := 0,
    points := [], masks := [(0, [(1, ⟨mA, 1, 0⟩), (2, ⟨mB, 2, 0⟩)])],
    frame_paths := ["00000.jpg"],
    is_initialized := true, needs_propagation := false,
    objects := [(1, ⟨1, "a", (0, 255, 0)⟩), (2, ⟨2, "b", (0, 0, 255)⟩)],
    current_object_id := some 1, next_object_id := 3, predictor_calls := 0 }

/-- A concrete session holding one mask whose frame index (10) lies outside
the single-entry frame_paths range. -/
def sC5 : SessionState :=
  { sC4 with masks := [(10, [(1, ⟨mA, 1, 10⟩)])] }

/-- A concrete session with objects 1 "a" and 2 "b" in which only object 2
carries a mask. -/
def sC7 : SessionState :=
  { sC4 with masks := [(0, [(2, ⟨mB, 2, 0⟩)])] }

/-- Append a name to an accumulator only if it is not already present:
the effect one add_category call has on the category name list. -/
def addNameOnce (names : List String) (n : String) : List String :=
  if n ∈ names then names else names ++ [n]

/-- First-occurrence deduplication of a name list. -/
def firstOccurrences (l : List String) : List String :=
  l.foldl addNameOnce []

/-- The object names, in mask iteration order, of the masks of one frame
entry that the export bounds test lets through. -/
def entryNames (s : SessionState) (fm : Int × List (Int × Mask)) : List String :=
  if inExportRange s fm.1 then fm.2.map (fun om => objectNameFor s om.1) else []

/-- The object names, in mask iteration order, of every session mask the
export bounds test lets through. -/
def exportedNames (s : SessionState) : List String :=
  (s.masks.map (entryNames s)).flatten

/-- The category bookkeeping COCODataset maintains: the name-to-id map is
exactly the category list (name paired with id), category ids are 1..n in
order, and the counter is one past the number of categories. -/
def catMapSpec (d : COCODataset) : Prop :=
  d.category_id_map = d.categories.map (fun c => (c.name, c.id))
  ∧ d.categories.map (fun c => c.id) = List.range' 1 d.categories.length
  ∧ d.next_category_id = d.categories.length + 1

theorem lookupA_setValA_self {κ α : Type} [DecidableEq κ] (k : κ) (v : α)
    (m : List (κ × α)) : lookupA k (setValA k v m) = some v := by
  induction m with
  | nil => simp [setValA, lookupA]
  | cons hd tl ih =>
    by_cases h : hd.1 = k
    · simp [setValA, lookupA, h]
    · simp [setValA, lookupA, h, ih]

theorem setValA_setValA {κ α : Type} [DecidableEq κ] (k : κ) (v w : α)
    (m : List (κ × α)) : setValA k w (setValA k v m) = setValA k w m := by
  induction m with
  | nil => simp [setValA]
  | cons hd tl ih =>
    by_cases h : hd.1 = k
    · simp [setValA, h]
    · simp [setValA, h, ih]

theorem setValA_of_lookupA_eq {κ α : Type} [DecidableEq κ] (k : κ) (v : α)
    {m : List (κ × α)} (h : lookupA k m = some v) : setValA k v m = m := by
  induction m with
  | nil => simp [lookupA] at h
  | cons hd tl ih =>
    obtain ⟨k', v'⟩ := hd
    by_cases hk : k' = k
    · simp [lookupA, hk] at h
      simp [setValA, hk, h]
    · simp [lookupA, hk] at h
      simp [setValA, hk, ih h]

theorem delA_setValA_of_lookupA_none {κ α : Type} [DecidableEq κ] (k : κ) (v : α)
    {m : List (κ × α)} (h : lookupA k m = none) : delA k (setValA k v m) = m := by
  induction m with
  | nil => simp [setValA, delA]
  | cons hd tl ih =>
    by_cases hk : hd.1 = k
    · simp [lookupA, hk] at h
    · simp [lookupA, hk] at h
      simp [setValA, delA, hk, ih h]

theorem propagateIfNeeded_needs_false (pred : Predictor) (s : SessionState) :
    (propagateIfNeeded pred s).needs_propagation = false := by
  unfold propagateIfNeeded
  by_cases h : s.needs_propagation <;> simp [h]

theorem propagateIfNeeded_of_needs_false (pred : Predictor) {s : SessionState}
    (h : s.needs_propagation = false) : propagateIfNeeded pred s = s := by
  simp [propagateIfNeeded, h]

theorem propagateIfNeeded_frame_fields (pred : Predictor) (s : SessionState) :
    (propagateIfNeeded pred s).start_frame = s.start_frame
    ∧ (propagateIfNeeded pred s).is_initialized = s.is_initialized
    ∧ (propagateIfNeeded pred s).current_frame_index = s.current_frame_index := by
  unfold propagateIfNeeded
  by_cases h : s.needs_propagation <;> simp [h]

theorem step_keeps_initialized (pred : Predictor) (op : Op) (s : SessionState)
    (h : s.is_initialized = true) :
    (step pred op s).is_initialized = true ∧ (step pred op s).start_frame = s.start_frame := by
  cases op with
  | addPoint x y l =>
    cases hoid : s.current_object_id with
    | none => simp [step, addPointStep, hoid, h]
    | some oid => simp [step, addPointStep, hoid, h]
  | undoPoint =>
    cases hlast : s.points.getLast? with
    | none => simp [step, undoPointStep, hlast, h]
    | some p =>
      cases hoid : s.current_object_id with
      | none => simp [step, undoPointStep, hlast, hoid, h]
      | some oid =>
        by_cases hrem :
            (pointsOnFrameForObj s.points.dropLast s.current_frame_index oid).isEmpty = true
        · simp [step, undoPointStep, hlast, hoid, hrem, h]
        · simp [step, undoPointStep, hlast, hoid, hrem, h]
  | nextFrame =>
    have hf := propagateIfNeeded_frame_fields pred s
    by_cases hc : s.current_frame_index < s.total_frames - 1
    · simp [step, nextFrameStep, hc, hf.1, hf.2.1, h]
    · simp [step, nextFrameStep, hc, h]
  | prevFrame =>
    have hf := propagateIfNeeded_frame_fields pred s
    by_cases hc : s.current_frame_index > 0
    · simp [step, prevFrameStep, hc, hf.1, hf.2.1, h]
    · simp [step, prevFrameStep, hc, h]
  | jumpToFrame t =>
    have hf := propagateIfNeeded_frame_fields pred s
    by_cases hc : clampFrame s.total_frames t ≠ s.current_frame_index
    · simp [step, jumpToFrameStep, hc, hf.1, hf.2.1, h]
    · simp [step, jumpToFrameStep, hc, h]
  | propagate =>
    have hf := propagateIfNeeded_frame_fields pred { s with needs_propagation := true }
    simp only [h] at hf
    simp [step, propagateStep, h, hf.1, hf.2.1]
  | addObject n =>
    simp only [step, addObjectStep]
    split_ifs <;> simp [h]
  | selectObject i =>
    simp only [step, selectObjectStep]
    split_ifs <;> simp [h]

theorem runOps_keeps_initialized (pred : Predictor) (ops : List Op) (s : SessionState)
    (h : s.is_initialized = true) :
    (runOps pred ops s).is_initialized = true
    ∧ (runOps pred ops s).start_frame = s.start_frame := by
  induction ops generalizing s with
  | nil => exact ⟨h, rfl⟩
  | cons op rest ih =>
    have hs := step_keeps_initialized pred op s h
    have := ih (step pred op s) hs.1
    exact ⟨this.1, this.2.trans hs.2⟩

theorem step_not_initialized (pred : Predictor) (op : Op) (s : SessionState)
    (h : s.is_initialized = false) (hop : ∀ x y l, op ≠ .addPoint x y l) :
    (step pred op s).is_initialized = false ∧ (step pred op s).start_frame = s.start_frame := by
  cases op with
  | addPoint x y l => exact absurd rfl (hop x y l)
  | undoPoint =>
    cases hlast : s.points.getLast? with
    | none => simp [step, undoPointStep, hlast, h]
    | some p =>
      cases hoid : s.current_object_id with
      | none => simp [step, undoPointStep, hlast, hoid, h]
      | some oid =>
        by_cases hrem :
            (pointsOnFrameForObj s.points.dropLast s.current_frame_index oid).isEmpty = true
        · simp [step, undoPointStep, hlast, hoid, hrem, h]
        · simp [step, undoPointStep, hlast, hoid, hrem, h]
  | nextFrame =>
    have hf := propagateIfNeeded_frame_fields pred s
    by_cases hc : s.current_frame_index < s.total_frames - 1
    · simp [step, nextFrameStep, hc, hf.1, hf.2.1, h]
    · simp [step, nextFrameStep, hc, h]
  | prevFrame =>
    have hf := propagateIfNeeded_frame_fields pred s
    by_cases hc : s.current_frame_index > 0
    · simp [step, prevFrameStep, hc, hf.1, hf.2.1, h]
    · simp [step, prevFrameStep, hc, h]
  | jumpToFrame t =>
    have hf := propagateIfNeeded_frame_fields pred s
    by_cases hc : clampFrame s.total_frames t ≠ s.current_frame_index
    · simp [step, jumpToFrameStep, hc, hf.1, hf.2.1, h]
    · simp [step, jumpToFrameStep, hc, h]
  | propagate =>
    simp [step, propagateStep, h]
  | addObject n =>
    simp only [step, addObjectStep]
    split_ifs <;> simp [h]
  | selectObject i =>
    simp only [step, selectObjectStep]
    split_ifs <;> simp [h]

/-- C1: For every annotation session and every sequence of operations
(addPoint, undoPoint, navigate, propagate), startFrame is assigned exactly
once, at the moment the first point of the session is added (the addPoint
that flips is_initialized), where it equals the currentFrame at that
moment, and is never reassigned afterward: while the session is
uninitialized no operation other than a point-adding addPoint touches
start_frame, the initializing addPoint sets it to the current frame, and
from then on every operation sequence preserves it. -/
theorem c1_startFrame_set_once (pred : Predictor) :
    (∀ ops s, s.is_initialized = true →
      (runOps pred ops s).start_frame = s.start_frame
      ∧ (runOps pred ops s).is_initialized = true)
    ∧ (∀ s x y l oid, s.is_initialized = false → s.current_object_id = some oid →
      (step pred (.addPoint x y l) s).is_initialized = true
      ∧ (step pred (.addPoint x y l) s).start_frame = s.current_frame_index)
    ∧ (∀ s op, s.is_initialized = false → (∀ x y l, op ≠ .addPoint x y l) →
      (step pred op s).is_initialized = false
      ∧ (step pred op s).start_frame = s.start_frame) := by
  refine ⟨fun ops s h => ?_, fun s x y l oid h hoid => ?_, fun s op h hop => ?_⟩
  · have := runOps_keeps_initialized pred ops s h
    exact ⟨this.2, this.1⟩
  · simp [step, addPointStep, hoid, h]
  · exact step_not_initialized pred op s h hop

theorem c1_startFrame_set_once_w :
    ((runOps predFix [Op.nextFrame] sBase).start_frame = sBase.start_frame
      ∧ (runOps predFix [Op.nextFrame] sBase).is_initialized = true)
    ∧ ((step predFix (Op.addPoint 10 10 1) sFresh).is_initialized = true
      ∧ (step predFix (Op.addPoint 10 10 1) sFresh).start_frame = sFresh.current_frame_index)
    ∧ ((step predFix Op.undoPoint sFresh).is_initialized = false
      ∧ (step predFix Op.undoPoint sFresh).start_frame = sFresh.start_frame) :=
  ⟨(c1_startFrame_set_once predFix).1 [Op.nextFrame] sBase rfl,
   (c1_startFrame_set_once predFix).2.1 sFresh 10 10 1 1 rfl rfl,
   (c1_startFrame_set_once predFix).2.2 sFresh Op.undoPoint rfl
     (fun _ _ _ h => Op.noConfusion h)⟩

/-- C3: In every reachable session state, needsPropagation is false
immediately after any successful propagation - after the manual propagate
command (available once the session is initialized) and after any
navigation step that actually moves the current frame, both of which run
the shared propagation procedure when the flag is set - and the flag
transitions from false to true only as a direct result of an addPoint or
undoPoint operation. -/
theorem c3_needsPropagation_lifecycle (pred : Predictor) :
    (∀ s, s.is_initialized = true →
      (step pred .propagate s).needs_propagation = false)
    ∧ (∀ s t, clampFrame s.total_frames t ≠ s.current_frame_index →
      (step pred (.jumpToFrame t) s).needs_propagation = false)
    ∧ (∀ s, s.current_frame_index < s.total_frames - 1 →
      (step pred .nextFrame s).needs_propagation = false)
    ∧ (∀ s, 0 < s.current_frame_index →
      (step pred .prevFrame s).needs_propagation = false)
    ∧ (∀ s op, s.needs_propagation = false →
      (step pred op s).needs_propagation = true →
      (∃ x y l, op = .addPoint x y l) ∨ op = .undoPoint) := by
  refine ⟨fun s h => ?_, fun s t h => ?_, fun s h => ?_, fun s h => ?_,
    fun s op h0 h1 => ?_⟩
  · simp [step, propagateStep, h, propagateIfNeeded_needs_false]
  · simp [step, jumpToFrameStep, h, propagateIfNeeded_needs_false]
  · simp [step, nextFrameStep, h, propagateIfNeeded_needs_false]
  · simp [step, prevFrameStep, h, propagateIfNeeded_needs_false]
  · cases op with
    | addPoint x y l => exact Or.inl ⟨x, y, l, rfl⟩
    | undoPoint => exact Or.inr rfl
    | nextFrame =>
      by_cases hc : s.current_frame_index < s.total_frames - 1
      · simp [step, nextFrameStep, hc, propagateIfNeeded_needs_false] at h1
      · simp [step, nextFrameStep, hc, h0] at h1
    | prevFrame =>
      by_cases hc : s.current_frame_index > 0
      · simp [step, prevFrameStep, hc, propagateIfNeeded_needs_false] at h1
      · simp [step, prevFrameStep, hc, h0] at h1
    | jumpToFrame t =>
      by_cases hc : clampFrame s.total_frames t ≠ s.current_frame_index
      · simp [step, jumpToFrameStep, hc, propagateIfNeeded_needs_false] at h1
      · simp [step, jumpToFrameStep, hc, h0] at h1
    | propagate =>
      by_cases hc : s.is_initialized = true
      · simp [step, propagateStep, hc, propagateIfNeeded_needs_false] at h1
      · simp only [Bool.not_eq_true] at hc
        simp [step, propagateStep, hc, h0] at h1
    | addObject n =>
      simp only [step, addObjectStep] at h1
      split_ifs at h1 <;> simp [h0] at h1
    | selectObject i =>
      simp only [step, selectObjectStep] at h1
      split_ifs at h1 <;> simp [h0] at h1

theorem c3_needsPropagation_lifecycle_w :
    (step predFix .propagate sBase).needs_propagation = false
    ∧ (step predFix (.jumpToFrame 0) sBase).needs_propagation = false
    ∧ (step predFix .nextFrame sBase).needs_propagation = false
    ∧ (step predFix .prevFrame sBase).needs_propagation = false
    ∧ ((∃ x y l, Op.addPoint 10 10 1 = Op.addPoint x y l)
        ∨ Op.addPoint 10 10 1 = Op.undoPoint) :=
  ⟨(c3_needsPropagation_lifecycle predFix).1 sBase rfl,
   (c3_needsPropagation_lifecycle predFix).2.1 sBase 0 (by decide),
   (c3_needsPropagation_lifecycle predFix).2.2.1 sBase (by decide),
   (c3_needsPropagation_lifecycle predFix).2.2.2.1 sBase (by decide),
   (c3_needsPropagation_lifecycle predFix).2.2.2.2 sNoNeed (.addPoint 10 10 1)
     rfl (by decide)⟩

/-- C10: In every session in which needsPropagation is true, a
navigate/jump whose clamped target frame equals the current frame leaves
the entire session unchanged - including the ghost predictor-call counter,
so no predictor call is issued - and likewise next-frame at the last frame
and previous-frame at frame 0; propagation is only triggered when the
current frame actually changes. -/
theorem c10_nav_same_frame_noop (pred : Predictor) :
    (∀ s t, s.needs_propagation = true →
      clampFrame s.total_frames t = s.current_frame_index →
      step pred (.jumpToFrame t) s = s)
    ∧ (∀ s, s.needs_propagation = true →
      s.total_frames - 1 ≤ s.current_frame_index →
      step pred .nextFrame s = s)
    ∧ (∀ s, s.needs_propagation = true → s.current_frame_index ≤ 0 →
      step pred .prevFrame s = s) := by
  refine ⟨fun s t _ hc => ?_, fun s _ hc => ?_, fun s _ hc => ?_⟩
  · simp [step, jumpToFrameStep, hc]
  · simp [step, nextFrameStep, not_lt.mpr hc]
  · simp [step, prevFrameStep, not_lt.mpr hc]

theorem c10_nav_same_frame_noop_w :
    step predFix (.jumpToFrame 7) sLast = sLast
    ∧ step predFix .nextFrame sLast = sLast
    ∧ step predFix .prevFrame sFirst = sFirst :=
  ⟨(c10_nav_same_frame_noop predFix).1 sLast 7 rfl (by decide),
   (c10_nav_same_frame_noop predFix).2.1 sLast rfl (by decide),
   (c10_nav_same_frame_noop predFix).2.2 sFirst rfl (by decide)⟩

theorem undoDeleteMask_addMask_none (masks : MaskMap) {inner : List (Int × Mask)}
    (f oid : Int) (m : Mask) (hmf : m.frame_index = f) (hmo : m.object_id = oid)
    (houter : lookupA f masks = some inner) (hnone : lookupA oid inner = none) :
    undoDeleteMask (addMask masks m) f oid = masks := by
  obtain ⟨md, mo, mf⟩ := m
  simp only at hmf hmo
  subst hmf hmo
  unfold addMask
  simp only [houter, Option.getD_some]
  unfold undoDeleteMask
  simp only [lookupA_setValA_self, Option.isSome_some, if_true]
  rw [delA_setValA_of_lookupA_none _ _ hnone, setValA_setValA,
    setValA_of_lookupA_eq _ _ houter]

theorem addMask_twice_restore (masks : MaskMap) {inner : List (Int × Mask)}
    (f oid : Int) (m1 m2 : Mask)
    (h1f : m1.frame_index = f) (h1o : m1.object_id = oid)
    (h2f : m2.frame_index = f) (h2o : m2.object_id = oid)
    (houter : lookupA f masks = some inner) (hsome : lookupA oid inner = some m2) :
    addMask (addMask masks m1) m2 = masks := by
  obtain ⟨md1, mo1, mf1⟩ := m1
  obtain ⟨md2, mo2, mf2⟩ := m2
  simp only at h1f h1o h2f h2o
  subst h1f h1o h2f h2o
  unfold addMask
  simp only [houter, Option.getD_some, lookupA_setValA_self]
  rw [setValA_setValA, setValA_setValA, setValA_of_lookupA_eq _ _ hsome,
    setValA_of_lookupA_eq _ _ houter]

/-- C2 counterexample: starting from the initialized session sNoNeed, whose
points list and masks map are empty and whose current object is selected,
addPoint followed immediately by undoPoint restores the points list but not
the masks map: the undo deletes the inner mask entry yet leaves behind an
empty per-frame dict for the current frame, so under Python dict equality
the masks map differs from its pre-addPoint state - exactly the case the
claim singles out, where the state had no mask entry at all for
(currentFrame, currentObjectId). -/
theorem c2_addUndo_cex :
    (step predFix .undoPoint (step predFix (.addPoint 10 10 1) sNoNeed)).points
        = sNoNeed.points
    ∧ maskMapEq
        (step predFix .undoPoint (step predFix (.addPoint 10 10 1) sNoNeed)).masks
        sNoNeed.masks = false := by
  decide

/-- C2 amended: addPoint followed immediately by undoPoint restores both
the points list and the masks map, provided the masks map already holds an
entry (possibly empty) for the current frame, and the stored state is
consistent at (currentFrame, currentObjectId): either no points and no mask
for that key, or some points and exactly the mask the predictor yields for
that point set. Without an existing per-frame entry the points list is
still restored but the masks map keeps an empty dict for the current frame
(the counterexample); the mask-value hypothesis is needed because a mask
overwritten by a propagation run is recomputed by undo from points alone. -/
theorem c2_addUndo_amended (pred : Predictor) (s : SessionState) (oid : Int)
    (inner : List (Int × Mask)) (x y l : Int)
    (hoid : s.current_object_id = some oid)
    (hinit : s.is_initialized = true)
    (houter : lookupA s.current_frame_index s.masks = some inner)
    (hcons :
      (pointsOnFrameForObj s.points s.current_frame_index oid = []
        ∧ lookupA oid inner = none)
      ∨ (pointsOnFrameForObj s.points s.current_frame_index oid ≠ []
        ∧ lookupA oid inner = some
          ⟨pred.addPoints ((pointsOnFrameForObj s.points s.current_frame_index oid).map
              (fun q => { q with frame_index := q.frame_index - s.start_frame })),
            oid, s.current_frame_index⟩)) :
    (step pred .undoPoint (step pred (.addPoint x y l) s)).points = s.points
    ∧ (step pred .undoPoint (step pred (.addPoint x y l) s)).masks = s.masks := by
  have h1 : step pred (.addPoint x y l) s =
      { s with
        points := s.points ++ [⟨x, y, l, s.current_frame_index, oid⟩],
        masks := addMask s.masks
          ⟨pred.addPoints
              ((pointsOnFrameForObj (s.points ++ [⟨x, y, l, s.current_frame_index, oid⟩])
                  s.current_frame_index oid).map
                (fun q => { q with frame_index := q.frame_index - s.start_frame })),
            oid, s.current_frame_index⟩,
        needs_propagation := true,
        predictor_calls := s.predictor_calls + 1 } := by
    simp [step, addPointStep, hoid, hinit]
  rw [h1]
  simp only [step, undoPointStep, List.getLast?_concat, List.dropLast_concat, hoid]
  rcases hcons with ⟨hP, hnone⟩ | ⟨hP, hsome⟩
  · simp only [hP, List.isEmpty_nil, if_true]
    exact ⟨trivial, undoDeleteMask_addMask_none s.masks _ _ _ rfl rfl houter hnone⟩
  · have hne : (pointsOnFrameForObj s.points s.current_frame_index oid).isEmpty = false := by
      cases hpts : pointsOnFrameForObj s.points s.current_frame_index oid with
      | nil => exact absurd hpts hP
      | cons a as => simp
    simp only [hne, Bool.false_eq_true, if_false]
    exact ⟨trivial, addMask_twice_restore s.masks _ _ _ _ rfl rfl rfl rfl houter hsome⟩

theorem c2_addUndo_amended_w :
    (step predFix .undoPoint (step predFix (.addPoint 3 4 1) sC2w)).points = sC2w.points
    ∧ (step predFix .undoPoint (step predFix (.addPoint 3 4 1) sC2w)).masks = sC2w.masks :=
  c2_addUndo_amended predFix sC2w 1 [] 3 4 1 rfl rfl rfl (Or.inl ⟨rfl, rfl⟩)

theorem lookupA_mem {κ α : Type} [DecidableEq κ] {k : κ} {v : α}
    {m : List (κ × α)} (h : lookupA k m = some v) : (k, v) ∈ m := by
  induction m with
  | nil => simp [lookupA] at h
  | cons hd tl ih =>
    obtain ⟨k', v'⟩ := hd
    by_cases hk : k' = k
    · simp [lookupA, hk] at h
      simp [hk, h]
    · simp [lookupA, hk] at h
      exact List.mem_cons_of_mem _ (ih h)

theorem add_sam_mask_counts (d : COCODataset) (m : MaskData) (p n : String) :
    (d.add_sam_mask m p n).images.length = d.images.length + 1
    ∧ (d.add_sam_mask m p n).annotations.length = d.annotations.length + 1 := by
  unfold COCODataset.add_sam_mask
  cases hl : lookupA n d.category_id_map with
  | none =>
    simp [COCODataset.add_category, hl, COCODataset.add_image,
      COCODataset.convert_mask_to_ann]
  | some cid =>
    simp [COCODataset.add_category, hl, COCODataset.add_image,
      COCODataset.convert_mask_to_ann]

theorem foldl_export_counts (s : SessionState) (f : Int) (oms : List (Int × Mask))
    (d : COCODataset) :
    ((oms.foldl (fun d2 om =>
        if inExportRange s f then
          d2.add_sam_mask om.2.mask_data (s.frame_paths.getD (f - s.start_frame).toNat "")
            (objectNameFor s om.1)
        else d2) d).images.length
      = d.images.length + (if inExportRange s f then oms.length else 0))
    ∧ ((oms.foldl (fun d2 om =>
        if inExportRange s f then
          d2.add_sam_mask om.2.mask_data (s.frame_paths.getD (f - s.start_frame).toNat "")
            (objectNameFor s om.1)
        else d2) d).annotations.length
      = d.annotations.length + (if inExportRange s f then oms.length else 0)) := by
  induction oms generalizing d with
  | nil => simp
  | cons om rest ih =>
    by_cases hr : inExportRange s f = true
    · have hadd := add_sam_mask_counts d om.2.mask_data
        (s.frame_paths.getD (f - s.start_frame).toNat "") (objectNameFor s om.1)
      have hrest := ih (d.add_sam_mask om.2.mask_data
        (s.frame_paths.getD (f - s.start_frame).toNat "") (objectNameFor s om.1))
      simp only [List.foldl_cons, hr, if_true] at *
      constructor
      · rw [hrest.1, hadd.1, List.length_cons]
        omega
      · rw [hrest.2, hadd.2, List.length_cons]
        omega
    · have hrest := ih d
      simp only [Bool.not_eq_true] at hr
      simp only [List.foldl_cons, hr, Bool.false_eq_true, if_false, Nat.add_zero] at hrest ⊢
      exact hrest

theorem exportMaskEntry_counts (s : SessionState) (d : COCODataset)
    (fm : Int × List (Int × Mask)) :
    ((exportMaskEntry s d fm).images.length
      = d.images.length + (if inExportRange s fm.1 then fm.2.length else 0))
    ∧ ((exportMaskEntry s d fm).annotations.length
      = d.annotations.length + (if inExportRange s fm.1 then fm.2.length else 0)) := by
  obtain ⟨f, oms⟩ := fm
  exact foldl_export_counts s f oms d

theorem export_fold_counts (s : SessionState) (entries : List (Int × List (Int × Mask)))
    (d : COCODataset) :
    ((entries.foldl (exportMaskEntry s) d).images.length
      = d.images.length
        + (entries.map (fun fm => if inExportRange s fm.1 then fm.2.length else 0)).sum)
    ∧ ((entries.foldl (exportMaskEntry s) d).annotations.length
      = d.annotations.length
        + (entries.map (fun fm => if inExportRange s fm.1 then fm.2.length else 0)).sum) := by
  induction entries generalizing d with
  | nil => simp
  | cons e rest ih =>
    have he := exportMaskEntry_counts s d e
    have hrest := ih (exportMaskEntry s d e)
    simp only [List.foldl_cons, List.map_cons, List.sum_cons]
    constructor
    · rw [hrest.1, he.1]; omega
    · rw [hrest.2, he.2]; omega

/-- C4 counterexample: exporting the concrete session sC4, whose single
frame carries masks for objects 1 and 2, emits two image records with the
same filename 00000.jpg - not one image record per unique filename as the
claim states. -/
theorem c4_image_per_filename_cex :
    ((export_to_coco sC4).images.map (fun i => i.file_name))
      = ["00000.jpg", "00000.jpg"]
    ∧ ((export_to_coco sC4).images.filter (fun i => i.file_name == "00000.jpg")).length
      = 2 := by
  decide

/-- C4 amended: exportCoco emits exactly one image record and exactly one
detection record per mask whose relative frame index lies inside
framePaths; image records are never deduplicated by filename (add_sam_mask
calls add_image unconditionally), so a frame carrying masks for several
objects contributes one image record per mask, each referenced by its own
detection record. -/
theorem c4_counts_amended (s : SessionState) :
    (export_to_coco s).images.length = exportedMaskCount s
    ∧ (export_to_coco s).annotations.length = exportedMaskCount s := by
  have h := export_fold_counts s s.masks emptyCoco
  simpa [export_to_coco, exportedMaskCount, emptyCoco] using h

theorem exportMaskEntry_out_of_range (s : SessionState) (d : COCODataset)
    (fm : Int × List (Int × Mask)) (h : inExportRange s fm.1 = false) :
    exportMaskEntry s d fm = d := by
  obtain ⟨f, oms⟩ := fm
  simp only at h
  unfold exportMaskEntry
  induction oms generalizing d with
  | nil => rfl
  | cons om rest ih =>
    simp only [List.foldl_cons]
    rw [if_neg (by simp [h])]
    exact ih d

theorem foldl_filter_inRange (s : SessionState) (entries : List (Int × List (Int × Mask)))
    (d : COCODataset) :
    (entries.filter (fun fm => inExportRange s fm.1)).foldl (exportMaskEntry s) d
      = entries.foldl (exportMaskEntry s) d := by
  induction entries generalizing d with
  | nil => rfl
  | cons e rest ih =>
    by_cases hr : inExportRange s e.1 = true
    · simp only [List.filter_cons, hr, if_true, List.foldl_cons]
      exact ih (exportMaskEntry s d e)
    · simp only [Bool.not_eq_true] at hr
      simp only [List.filter_cons, hr, Bool.false_eq_true, if_false, List.foldl_cons,
        exportMaskEntry_out_of_range s d e hr]
      exact ih d

/-- C5 counterexample: the concrete session sC5 holds one mask at frame 10
while frame_paths has a single entry, so the mask's relative index is out
of range; exportCoco does not fail - it runs to completion and returns the
empty dataset, silently dropping the mask, where the claim demands an
ExportError and an aborted export. -/
theorem c5_silent_skip_cex :
    export_to_coco sC5 = emptyCoco
    ∧ sC5.masks ≠ []
    ∧ inExportRange sC5 10 = false := by
  decide

/-- C5 amended: masks whose relative frame index falls outside framePaths
bounds are silently skipped rather than aborting the export: the export of
any session equals the export of the same session with all out-of-range
mask entries removed, and it always completes (export_to_coco is total). -/
theorem c5_out_of_range_skipped (s : SessionState) :
    export_to_coco { s with masks := s.masks.filter (fun fm => inExportRange s fm.1) }
      = export_to_coco s := by
  have hfn : exportMaskEntry
      { s with masks := s.masks.filter (fun fm => inExportRange s fm.1) }
      = exportMaskEntry s := by
    funext d fm
    simp [exportMaskEntry, inExportRange, objectNameFor]
  unfold export_to_coco
  simp only [hfn]
  exact foldl_filter_inRange s s.masks emptyCoco

/-- C7 counterexample: in the concrete session sC7 the objects map holds
object 1 "a" and object 2 "b", and only object 2 carries a mask; exportCoco
produces a single category with id 1 named "b" - there is no category with
the object's own id 2, no category at all for object 1 "a", and the
detection record's categoryId is 1 while the mask's objectId is 2. -/
theorem c7_category_ids_cex :
    (export_to_coco sC7).categories = [⟨1, "b", "object"⟩]
    ∧ (export_to_coco sC7).annotations.map (fun a => a.category_id) = [1]
    ∧ lookupA 2 sC7.objects = some ⟨2, "b", (0, 0, 255)⟩ := by
  decide

/-- C6: the partial-export command of the view-model resolves the method
name export_to_coco_partial on the ExportService instance, but ExportService
defines no such method, so every invocation fails with an AttributeError
before any export work happens; the partial export never completes, on any
session, including every session on which the full export succeeds. -/
theorem c6_exportPartialCmd_fails (s : SessionState) :
    exportCocoPartialCmd s = Except.error
      (.attributeFault "ExportService object has no attribute export_to_coco_partial") := by
  unfold exportCocoPartialCmd
  rw [if_neg (by decide)]

/-- C8 counterexample: at absoluteFrame 2 and startFrame 5 the code's
conversion simply subtracts and yields the negative index -3 instead of
failing; the checked conversion the spec describes would return none here.
This falsifies the claim's second half - toRelative does not fail for
f < s, it produces a negative index. -/
theorem c8_negative_index_cex :
    toRelative 2 5 = -3 ∧ toRelativeChecked 2 5 = none := by
  decide

/-- C8 amended: the round-trip law holds as claimed (for f >= s >= 0, and
in fact for all integers): toAbsolute (toRelative f s) s = f; but for
f < s, toRelative does not fail with an error - it returns the negative
index f - s, which callers must guard against (the export loop skips
negative relative indices). -/
theorem c8_roundTrip_amended (f s : Int) :
    (0 ≤ s → s ≤ f → toAbsolute (toRelative f s) s = f)
    ∧ (f < s → toRelative f s < 0) := by
  constructor
  · intro _ _
    unfold toAbsolute toRelative
    omega
  · intro h
    unfold toRelative
    omega

theorem c8_roundTrip_amended_w :
    toAbsolute (toRelative 7 2) 2 = 7 ∧ toRelative 2 5 < 0 :=
  ⟨(c8_roundTrip_amended 7 2).1 (by decide) (by decide),
   (c8_roundTrip_amended 2 5).2 (by decide)⟩

/-- C9: addObject with a name that is empty after stripping, or whose
stripped lowercase form equals the stripped lowercase form of an existing
object's name (stored names are stripped, which the first hypothesis
records), is rejected before any mutation: the resulting state is exactly
the old one, so the objects map, currentObjectId and nextObjectId are all
unchanged and no object id is consumed; the rejection surfaces only as a
status message. -/
theorem c9_addObject_rejected (s : SessionState) (name : String)
    (htrim : ∀ kv ∈ s.objects, pyStrip kv.2.name = kv.2.name)
    (h : pyStrip name = ""
      ∨ ∃ kv ∈ s.objects, pyLower (pyStrip kv.2.name) = pyStrip (pyLower name)) :
    addObjectStep name s = s := by
  rcases h with h | ⟨kv, hkv, heq⟩
  · simp [addObjectStep, h]
  · have hmem : s.objects.any
        (fun kv => pyLower kv.2.name == pyStrip (pyLower name)) = true := by
      refine List.any_eq_true.mpr ⟨kv, hkv, ?_⟩
      rw [htrim kv hkv] at heq
      simpa using heq
    by_cases hempty : pyStrip name = ""
    · simp [addObjectStep, hempty]
    · simp [addObjectStep, hempty, hmem]

theorem c9_addObject_rejected_w :
    addObjectStep "BLOCK " sBase = sBase :=
  c9_addObject_rejected sBase "BLOCK " (by decide)
    (Or.inr ⟨(1, ⟨1, "block", (0, 255, 0)⟩), by decide, by decide⟩)

theorem lookupA_append_some {κ α : Type} [DecidableEq κ] {k : κ} {v : α}
    {a : List (κ × α)} (b : List (κ × α)) (h : lookupA k a = some v) :
    lookupA k (a ++ b) = some v := by
  induction a with
  | nil => simp [lookupA] at h
  | cons hd tl ih =>
    obtain ⟨k', v'⟩ := hd
    by_cases hk : k' = k
    · simp [lookupA, hk] at h
      simp [lookupA, hk, h]
    · simp [lookupA, hk] at h
      simp [lookupA, hk, ih h]

theorem lookupA_append_none {κ α : Type} [DecidableEq κ] {k : κ}
    {a : List (κ × α)} (b : List (κ × α)) (h : lookupA k a = none) :
    lookupA k (a ++ b) = lookupA k b := by
  induction a with
  | nil => simp
  | cons hd tl ih =>
    obtain ⟨k', v'⟩ := hd
    by_cases hk : k' = k
    · simp [lookupA, hk] at h
    · simp [lookupA, hk] at h
      simp [lookupA, hk, ih h]

theorem lookupA_catMap_none_iff (cats : List CocoCategory) (n : String) :
    lookupA n (cats.map (fun c => (c.name, c.id))) = none
      ↔ n ∉ cats.map (fun c => c.name) := by
  induction cats with
  | nil => simp [lookupA]
  | cons c rest ih =>
    by_cases hc : c.name = n
    · simp [lookupA, hc]
    · simp [lookupA, hc, ih, Ne.symm hc]

theorem add_category_spec (d : COCODataset) (n : String) (h : catMapSpec d) :
    catMapSpec (d.add_category n).1
    ∧ (d.add_category n).1.categories.map (fun c => c.name)
        = addNameOnce (d.categories.map (fun c => c.name)) n
    ∧ (d.add_category n).1.images = d.images
    ∧ (d.add_category n).1.annotations = d.annotations
    ∧ lookupA n (d.add_category n).1.category_id_map = some (d.add_category n).2
    ∧ (∀ k v, lookupA k d.category_id_map = some v
        → lookupA k (d.add_category n).1.category_id_map = some v) := by
  obtain ⟨h1, h2, h3⟩ := h
  cases hl : lookupA n d.category_id_map with
  | some cid =>
    have hmemn : n ∈ d.categories.map (fun c => c.name) := by
      by_contra hn
      rw [h1, (lookupA_catMap_none_iff d.categories n).mpr hn] at hl
      exact Option.noConfusion hl
    simp only [COCODataset.add_category, hl]
    exact ⟨⟨h1, h2, h3⟩, by simp [addNameOnce, hmemn], trivial, trivial, trivial,
      fun k v hv => hv⟩
  | none =>
    have hnmem : n ∉ d.categories.map (fun c => c.name) :=
      (lookupA_catMap_none_iff d.categories n).mp (by rw [← h1]; exact hl)
    simp only [COCODataset.add_category, hl]
    refine ⟨⟨?_, ?_, ?_⟩, ?_, trivial, trivial, ?_, ?_⟩
    · simp [h1]
    · have hr : List.range' 1 d.categories.length ++ [1 + d.categories.length]
          = List.range' 1 (d.categories.length + 1) := by
        have h' := List.range'_append_1 1 d.categories.length 1
        simpa [Nat.add_comm] using h'
      simp only [List.map_append, List.length_append, List.map_cons, List.map_nil,
        List.length_cons, List.length_nil, h2, h3]
      rw [← hr]
      simp [Nat.add_comm]
    · simp [h3]
    · simp [addNameOnce, hnmem]
    · rw [lookupA_append_none _ (by rw [h1]; exact (lookupA_catMap_none_iff _ _).mpr hnmem)]
      simp [lookupA]
    · exact fun k v hv => lookupA_append_some _ hv

theorem add_image_spec (d : COCODataset) (p : String) (w hgt : Nat) (a : CocoAnn) :
    (d.add_image p w hgt (some a)).categories = d.categories
    ∧ (d.add_image p w hgt (some a)).category_id_map = d.category_id_map
    ∧ (d.add_image p w hgt (some a)).next_category_id = d.next_category_id
    ∧ (d.add_image p w hgt (some a)).annotations.map (fun x => x.category_id)
        = d.annotations.map (fun x => x.category_id) ++ [a.category_id] := by
  simp [COCODataset.add_image]

theorem add_sam_mask_spec (d : COCODataset) (m : MaskData) (p n : String)
    (h : catMapSpec d) :
    catMapSpec (d.add_sam_mask m p n)
    ∧ (d.add_sam_mask m p n).categories.map (fun c => c.name)
        = addNameOnce (d.categories.map (fun c => c.name)) n
    ∧ (∃ cid, lookupA n (d.add_sam_mask m p n).category_id_map = some cid
        ∧ (d.add_sam_mask m p n).annotations.map (fun x => x.category_id)
            = d.annotations.map (fun x => x.category_id) ++ [cid])
    ∧ (∀ k v, lookupA k d.category_id_map = some v
        → lookupA k (d.add_sam_mask m p n).category_id_map = some v) := by
  obtain ⟨hcs, hnames, himg, hann, hlook, hmono⟩ := add_category_spec d n h
  obtain ⟨hcs1, hcs2, hcs3⟩ := hcs
  unfold COCODataset.add_sam_mask
  obtain ⟨hi1, hi2, hi3, hi4⟩ := add_image_spec (d.add_category n).1 p
    (maskWidth m) (maskHeight m)
    ((d.add_category n).1.convert_mask_to_ann m (d.add_category n).2)
  refine ⟨⟨?_, ?_, ?_⟩, ?_, ⟨(d.add_category n).2, ?_, ?_⟩, ?_⟩
  · rw [hi2, hi1, hcs1]
  · rw [hi1, hcs2]
  · rw [hi3, hi1, hcs3]
  · rw [hi1, hnames]
  · rw [hi2]
    exact hlook
  · rw [hi4, hann]
    simp [COCODataset.convert_mask_to_ann]
  · intro k v hv
    rw [hi2]
    exact hmono k v hv

theorem foldl_addSam_catSpec (s : SessionState) (pth : String) (oms : List (Int × Mask)) :
    ∀ d : COCODataset, catMapSpec d →
    catMapSpec (oms.foldl (fun d2 om =>
        d2.add_sam_mask om.2.mask_data pth (objectNameFor s om.1)) d)
    ∧ (oms.foldl (fun d2 om =>
        d2.add_sam_mask om.2.mask_data pth (objectNameFor s om.1)) d).categories.map
          (fun c => c.name)
        = (oms.map (fun om => objectNameFor s om.1)).foldl addNameOnce
            (d.categories.map (fun c => c.name))
    ∧ (oms.foldl (fun d2 om =>
        d2.add_sam_mask om.2.mask_data pth (objectNameFor s om.1)) d).annotations.map
          (fun x => x.category_id)
        = d.annotations.map (fun x => x.category_id)
          ++ (oms.map (fun om => objectNameFor s om.1)).map
              (fun n => (lookupA n (oms.foldl (fun d2 om =>
                  d2.add_sam_mask om.2.mask_data pth
                    (objectNameFor s om.1)) d).category_id_map).getD 0)
    ∧ (∀ k v, lookupA k d.category_id_map = some v
        → lookupA k (oms.foldl (fun d2 om =>
            d2.add_sam_mask om.2.mask_data pth (objectNameFor s om.1)) d).category_id_map
          = some v)
    ∧ (∀ n ∈ oms.map (fun om => objectNameFor s om.1),
        (lookupA n (oms.foldl (fun d2 om =>
            d2.add_sam_mask om.2.mask_data pth (objectNameFor s om.1)) d).category_id_map).isSome
          = true) := by
  induction oms with
  | nil =>
    intro d h
    exact ⟨h, by simp, by simp, fun k v hv => hv, by simp⟩
  | cons om rest ih =>
    intro d h
    obtain ⟨hs1, hs2, ⟨cid, hclook, hcann⟩, hs4⟩ :=
      add_sam_mask_spec d om.2.mask_data pth (objectNameFor s om.1) h
    obtain ⟨hr1, hr2, hr3, hr4, hr5⟩ :=
      ih (d.add_sam_mask om.2.mask_data pth (objectNameFor s om.1)) hs1
    have hlookfin := hr4 _ _ hclook
    simp only [List.foldl_cons, List.map_cons]
    refine ⟨hr1, ?_, ?_, fun k v hv => hr4 k v (hs4 k v hv), ?_⟩
    · rw [hr2, hs2]
    · rw [hr3, hcann, hlookfin]
      simp [List.append_assoc]
    · intro n hn
      rcases List.mem_cons.mp hn with hn | hn
      · subst hn
        rw [hlookfin]
        rfl
      · exact hr5 n hn

theorem exportMaskEntry_catSpec (s : SessionState) (fm : Int × List (Int × Mask))
    (d : COCODataset) (h : catMapSpec d) :
    catMapSpec (exportMaskEntry s d fm)
    ∧ (exportMaskEntry s d fm).categories.map (fun c => c.name)
        = (entryNames s fm).foldl addNameOnce (d.categories.map (fun c => c.name))
    ∧ (exportMaskEntry s d fm).annotations.map (fun x => x.category_id)
        = d.annotations.map (fun x => x.category_id)
          ++ (entryNames s fm).map
              (fun n => (lookupA n (exportMaskEntry s d fm).category_id_map).getD 0)
    ∧ (∀ k v, lookupA k d.category_id_map = some v
        → lookupA k (exportMaskEntry s d fm).category_id_map = some v)
    ∧ (∀ n ∈ entryNames s fm,
        (lookupA n (exportMaskEntry s d fm).category_id_map).isSome = true) := by
  obtain ⟨f, oms⟩ := fm
  by_cases hr : inExportRange s f = true
  · have hexp : exportMaskEntry s d (f, oms)
        = oms.foldl (fun d2 om =>
            d2.add_sam_mask om.2.mask_data (s.frame_paths.getD (f - s.start_frame).toNat "")
              (objectNameFor s om.1)) d := by
      unfold exportMaskEntry
      simp only [hr, if_true]
    have hent : entryNames s (f, oms) = oms.map (fun om => objectNameFor s om.1) := by
      simp [entryNames, hr]
    rw [hexp, hent]
    exact foldl_addSam_catSpec s (s.frame_paths.getD (f - s.start_frame).toNat "") oms d h
  · have hrf : inExportRange s f = false := by simpa using hr
    have hent : entryNames s (f, oms) = [] := by
      simp [entryNames, hrf]
    rw [exportMaskEntry_out_of_range s d (f, oms) hrf, hent]
    exact ⟨h, by simp, by simp, fun k v hv => hv, by simp⟩

theorem export_fold_catSpec (s : SessionState) (entries : List (Int × List (Int × Mask))) :
    ∀ d : COCODataset, catMapSpec d →
    catMapSpec (entries.foldl (exportMaskEntry s) d)
    ∧ (entries.foldl (exportMaskEntry s) d).categories.map (fun c => c.name)
        = ((entries.map (entryNames s)).flatten).foldl addNameOnce
            (d.categories.map (fun c => c.name))
    ∧ (entries.foldl (exportMaskEntry s) d).annotations.map (fun x => x.category_id)
        = d.annotations.map (fun x => x.category_id)
          ++ ((entries.map (entryNames s)).flatten).map
              (fun n => (lookupA n
                  (entries.foldl (exportMaskEntry s) d).category_id_map).getD 0)
    ∧ (∀ k v, lookupA k d.category_id_map = some v
        → lookupA k (entries.foldl (exportMaskEntry s) d).category_id_map = some v)
    ∧ (∀ n ∈ (entries.map (entryNames s)).flatten,
        (lookupA n (entries.foldl (exportMaskEntry s) d).category_id_map).isSome = true) := by
  induction entries with
  | nil =>
    intro d h
    exact ⟨h, by simp, by simp, fun k v hv => hv, by simp⟩
  | cons e rest ih =>
    intro d h
    obtain ⟨hs1, hs2, hs3, hs4, hs5⟩ := exportMaskEntry_catSpec s e d h
    obtain ⟨hr1, hr2, hr3, hr4, hr5⟩ := ih (exportMaskEntry s d e) hs1
    have hmapeq : (entryNames s e).map
          (fun n => (lookupA n (exportMaskEntry s d e).category_id_map).getD 0)
        = (entryNames s e).map
            (fun n => (lookupA n
                (rest.foldl (exportMaskEntry s) (exportMaskEntry s d e)).category_id_map).getD 0) := by
      apply List.map_congr_left
      intro n hn
      obtain ⟨v, hv⟩ := Option.isSome_iff_exists.mp (hs5 n hn)
      rw [hv, hr4 n v hv]
    simp only [List.foldl_cons, List.map_cons, List.flatten_cons]
    refine ⟨hr1, ?_, ?_, fun k v hv => hr4 k v (hs4 k v hv), ?_⟩
    · rw [List.foldl_append, hr2, hs2]
    · rw [hr3, hs3, hmapeq, List.map_append, List.append_assoc]
    · intro n hn
      rcases List.mem_append.mp hn with hn | hn
      · obtain ⟨v, hv⟩ := Option.isSome_iff_exists.mp (hs5 n hn)
        rw [hr4 n v hv]
        rfl
      · exact hr5 n hn

theorem foldl_addNameOnce_nodup (l : List String) :
    ∀ acc : List String, acc.Nodup → (l.foldl addNameOnce acc).Nodup := by
  induction l with
  | nil => exact fun acc h => h
  | cons a rest ih =>
    intro acc h
    simp only [List.foldl_cons]
    apply ih
    by_cases ha : a ∈ acc
    · simpa [addNameOnce, ha] using h
    · simp only [addNameOnce, ha, if_false]
      simp [List.nodup_append, h, ha]

theorem firstOccurrences_nodup (l : List String) : (firstOccurrences l).Nodup :=
  foldl_addNameOnce_nodup l [] List.nodup_nil

/-- C7 amended: exportCoco builds categories on demand, one per distinct
object name among the exported masks: the category name list is exactly the
first-occurrence deduplication of the exported masks' object names (in mask
iteration order, with "unknown" standing in for object ids absent from
session.objects), it holds no duplicates, and category ids are assigned
sequentially from 1 in that order - not equal to the objects' own ids, and
objects without masks get no category. The name-to-id map the export
maintains is exactly the category list itself, every exported object name
is in it, and the annotations' categoryIds are, in mask order, exactly the
ids that map assigns to each mask's object's name. -/
theorem c7_categories_amended (s : SessionState) :
    ((export_to_coco s).categories.map (fun c => c.name)).Nodup
    ∧ ((export_to_coco s).categories.map (fun c => c.name))
        = firstOccurrences (exportedNames s)
    ∧ ((export_to_coco s).categories.map (fun c => c.id))
        = List.range' 1 (export_to_coco s).categories.length
    ∧ (export_to_coco s).category_id_map
        = (export_to_coco s).categories.map (fun c => (c.name, c.id))
    ∧ ((export_to_coco s).annotations.map (fun a => a.category_id))
        = (exportedNames s).map
            (fun n => (lookupA n (export_to_coco s).category_id_map).getD 0)
    ∧ (exportedNames s).all
        (fun n => (lookupA n (export_to_coco s).category_id_map).isSome) = true := by
  obtain ⟨⟨hm1, hm2, hm3⟩, hnames, hanns, hmono, hsome⟩ :=
    export_fold_catSpec s s.masks emptyCoco ⟨rfl, rfl, rfl⟩
  have hnamesFO : (export_to_coco s).categories.map (fun c => c.name)
      = firstOccurrences (exportedNames s) := by
    unfold export_to_coco exportedNames firstOccurrences
    simpa [emptyCoco] using hnames
  refine ⟨hnamesFO ▸ firstOccurrences_nodup (exportedNames s), hnamesFO, hm2, hm1, ?_, ?_⟩
  · unfold export_to_coco exportedNames
    simpa [emptyCoco] using hanns
  · rw [List.all_eq_true]
    intro n hn
    exact hsome n (by simpa [exportedNames] using hn)
